import Mathlib

/-!
Verification of the catalog synchronization and document-generation pipeline
of the WooCommerce catalog application.

The development shallowly embeds the application's source:
- `src/lib/woocommerce.ts` (`syncProducts`, the Remote Catalog Client),
- `src/App.tsx` (`handleSync`, `generatePDF`, the Sync Orchestrator and UI layer),
- `src/lib/pdf.ts` (`generateProductCatalog`, the Document Renderer),
- the `supabase` migration (table shapes for `products` and `company_settings`).

JavaScript numbers produced by `parseFloat` are modelled by `JsNum`
(rational value, NaN, or a signed infinity); strings are Lean strings;
timestamps are opaque strings; the current date, read by the renderer via
`new Date()`, is modelled as an explicit `SimpleDate` input.
-/

/-- A JavaScript number as produced by `parseFloat`: NaN, a signed infinity,
or a finite value (modelled as a rational, adequate for decimal price strings). -/
inductive JsNum where
  | nan
  | posInf
  | negInf
  | val (q : ℚ)
deriving DecidableEq, Repr

/-- Whitespace characters skipped by JavaScript `parseFloat` before parsing. -/
def jsWhitespaceChar (c : Char) : Bool :=
  c == ' ' || c == '\t' || c == '\n' || c == '\r' || c == '\x0b' || c == '\x0c'

/-- Splits a character list into its longest prefix of decimal digits and the rest. -/
def takeDigits : List Char → List Char × List Char
  | [] => ([], [])
  | c :: cs =>
    if c.isDigit then
      let r := takeDigits cs
      (c :: r.1, r.2)
    else ([], c :: cs)

/-- Numeric value of a list of decimal digit characters (most significant first). -/
def digitsVal (ds : List Char) : Nat :=
  ds.foldl (fun a c => a * 10 + (c.toNat - 48)) 0

/-- Exponent digits after an optional sign; an empty digit run means the
exponent part is not a valid `ExponentPart` and contributes 0. -/
def parseExpVal (neg : Bool) (cs : List Char) : Int :=
  let p := takeDigits cs
  if p.1.isEmpty then 0
  else if neg then -(digitsVal p.1 : Int) else (digitsVal p.1 : Int)

/-- Optional sign of an exponent part. -/
def parseExpSign (cs : List Char) : Int :=
  match cs with
  | '+' :: rest => parseExpVal false rest
  | '-' :: rest => parseExpVal true rest
  | rest => parseExpVal false rest

/-- Exponent contributed by a trailing `e`/`E` exponent part (0 when absent or invalid). -/
def parseExponent (cs : List Char) : Int :=
  match cs with
  | 'e' :: rest => parseExpSign rest
  | 'E' :: rest => parseExpSign rest
  | _ => 0

/-- Significand of a decimal literal: digits, an optional decimal point and
fraction digits. Yields the combined digit value, the number of fraction digits
and the remaining input; fails when there is no digit at all (as in `parseFloat("abc")`). -/
def parseSignificand (cs : List Char) : Option (Nat × Nat × List Char) :=
  let ip := takeDigits cs
  match ip.2 with
  | '.' :: afterDot =>
    let fp := takeDigits afterDot
    if ip.1.isEmpty && fp.1.isEmpty then none
    else some (digitsVal ip.1 * 10 ^ fp.1.length + digitsVal fp.1, fp.1.length, fp.2)
  | _ =>
    if ip.1.isEmpty then none
    else some (digitsVal ip.1, 0, ip.2)

/-- The rational ±m·10^e10. Stated with `mkRat` and integer arithmetic so that
concrete values reduce in the kernel. -/
def decValue (neg : Bool) (m : Nat) (e10 : Int) : ℚ :=
  let n : Int := if neg then -(m : Int) else (m : Int)
  if 0 ≤ e10 then mkRat (n * ((10 ^ e10.toNat : Nat) : Int)) 1
  else mkRat n (10 ^ (-e10).toNat)

/-- Recognizes the `Infinity` keyword of a JavaScript number literal. -/
def startsWithInfinity : List Char → Bool
  | 'I' :: 'n' :: 'f' :: 'i' :: 'n' :: 'i' :: 't' :: 'y' :: _ => true
  | _ => false

/-- Body of `parseFloat` after the optional sign has been consumed. -/
def parseJsFloatUnsigned (neg : Bool) (cs : List Char) : JsNum :=
  if startsWithInfinity cs then (if neg then .negInf else .posInf)
  else
    match parseSignificand cs with
    | none => .nan
    | some (m, fracLen, rest) =>
      .val (decValue neg m (parseExponent rest - (fracLen : Int)))

/-- JavaScript `parseFloat`: skips leading whitespace, parses an optional sign
and the longest valid decimal-literal prefix, and yields NaN when no prefix parses. -/
def parseJsFloat (s : String) : JsNum :=
  match s.toList.dropWhile jsWhitespaceChar with
  | '+' :: rest => parseJsFloatUnsigned false rest
  | '-' :: rest => parseJsFloatUnsigned true rest
  | rest => parseJsFloatUnsigned false rest

/-- Two-digit zero padding, as used for `dd` and `MM` date fields and cents. -/
def pad2 (n : Nat) : String :=
  if n < 10 then "0" ++ toString n else toString n

/-- `Number.prototype.toFixed(2)` on a finite value: the integer n for which
n / 100 is closest to the value, the larger one on ties, rendered with two decimals.
That n is ⌊q·100 + 1/2⌋, computed here as (q.num·200 + q.den) fdiv (2·q.den). -/
def toFixed2Q (q : ℚ) : String :=
  let n : Int := Int.fdiv (q.num * 200 + (q.den : Int)) (2 * (q.den : Int))
  if n < 0 then "-" ++ toString ((-n).toNat / 100) ++ "." ++ pad2 ((-n).toNat % 100)
  else toString (n.toNat / 100) ++ "." ++ pad2 (n.toNat % 100)

/-- `Number.prototype.toFixed(2)` on a JavaScript number. -/
def toFixed2 : JsNum → String
  | .nan => "NaN"
  | .posInf => "Infinity"
  | .negInf => "-Infinity"
  | .val q => toFixed2Q q

/-- A calendar date, the part of `new Date()` the Document Renderer observes. -/
structure SimpleDate where
  day : Nat
  month : Nat
  year : Nat
deriving DecidableEq, Repr

/-- Four-digit zero padding for the `yyyy` date field. -/
def pad4 (n : Nat) : String :=
  if n < 10 then "000" ++ toString n
  else if n < 100 then "00" ++ toString n
  else if n < 1000 then "0" ++ toString n
  else toString n

/-- Models date-fns `format(date, "dd/MM/yyyy")` as used by the renderer's subtitle. -/
def formatDDMMYYYY (d : SimpleDate) : String :=
  pad2 d.day ++ "/" ++ pad2 d.month ++ "/" ++ pad4 d.year

example : parseJsFloat "abc" = JsNum.nan := by decide
example : parseJsFloat "0" = JsNum.val 0 := by decide
example : parseJsFloat "19.90" = JsNum.val (mkRat 199 10) := by decide
example : parseJsFloat "  -2.5e1x" = JsNum.val (-25) := by decide
example : parseJsFloat "Infinity" = JsNum.posInf := by decide
example : parseJsFloat "5.e3" = JsNum.val 5000 := by decide
example : toFixed2 (JsNum.val (mkRat 199 10)) = "19.90" := by decide
example : toFixed2 (JsNum.val 10) = "10.00" := by decide
example : formatDDMMYYYY ⟨5, 1, 2025⟩ = "05/01/2025" := by decide

/-- A WooCommerce wire record, per the `WooCommerceProduct` interface of
`src/lib/woocommerce.ts`. `images` holds the `src` of each image object and
`categories` the `name` of each category object. -/
structure WooRecord where
  id : Nat
  name : String
  price : String
  description : String
  images : List String
  categories : List String
  status : String
deriving DecidableEq, Repr

/-- The payload obtained from `response.json()`: either a sequence of records
or a value that is not an array (`Array.isArray` fails). -/
inductive RemotePayload where
  | arr (records : List WooRecord)
  | notArr
deriving DecidableEq

/-- The `company_settings` columns read by `syncProducts`. -/
structure WooSettings where
  woocommerce_url : String
  woocommerce_key : String
  woocommerce_secret : String
deriving DecidableEq, Repr

/-- Environment of one `syncProducts` call: the settings row returned by the
single-row select (none when the select errors because no row exists),
and the remote HTTP response (status, body text, parsed JSON payload). -/
structure RemoteEnv where
  settings : Option WooSettings
  status : Nat
  bodyText : String
  payload : RemotePayload
deriving DecidableEq

/-- A normalized product, the element type of the array `syncProducts` returns. -/
structure NormalizedProduct where
  woo_id : Nat
  name : String
  price : JsNum
  description : String
  image_url : Option String
  category : Option String
  is_active : Bool
deriving DecidableEq, Repr

/-- JavaScript `x || null` on an optional string (`undefined` and the empty
string are falsy), as in `product.images[0]?.src || null`. -/
def jsOrNull : Option String → Option String
  | some s => if s.isEmpty then none else some s
  | none => none

/-- Normalization of one remote record, from the `products.map` callback of
`syncProducts` (woocommerce.ts lines 56-64). The price is
`parseFloat(product.price || '0')`. -/
def normalizeProduct (r : WooRecord) : NormalizedProduct :=
  { woo_id := r.id
    name := r.name
    price := parseJsFloat (if r.price.isEmpty then "0" else r.price)
    description := r.description
    image_url := jsOrNull r.images.head?
    category := jsOrNull r.categories.head?
    is_active := r.status == "publish" }

/-- JavaScript `url.endsWith('/')`: the last character is a slash. -/
def endsWithSlash (url : String) : Bool :=
  url.toList.getLast? == some '/'

/-- The fixed path-and-query suffix of the products endpoint. -/
def productsQuery : String := "wp-json/wc/v3/products?per_page=100"

/-- The request URL built by `syncProducts` (woocommerce.ts lines 34-36):
a slash is appended unless the configured URL already ends with one. -/
def buildApiUrl (url : String) : String :=
  (if endsWithSlash url then url else url ++ "/") ++ productsQuery

/-- Error message thrown when loading the settings row fails (woocommerce.ts line 22). -/
def settingsLoadErrorMsg : String :=
  "Erro ao carregar configurações do WooCommerce. Por favor, configure primeiro."

/-- Error message thrown for any non-ok HTTP status (woocommerce.ts line 47). -/
def apiErrorMsg (status : Nat) (body : String) : String :=
  "Erro na API do WooCommerce: " ++ toString status ++ " - " ++ body

/-- Error message thrown when the payload is not an array (woocommerce.ts line 53). -/
def invalidResponseMsg : String := "Resposta inválida da API do WooCommerce"

/-- `Response.ok` of the Fetch API: status in the range 200-299. -/
def responseOk (status : Nat) : Bool :=
  decide (200 ≤ status ∧ status ≤ 299)

/-- The Remote Catalog Client `syncProducts` (woocommerce.ts lines 13-69):
loads settings, fetches the product listing, checks the HTTP status, checks
the payload is an array, and returns the normalized products. Every failure
is a thrown `Error` carrying a message string. -/
def syncProducts (env : RemoteEnv) : Except String (List NormalizedProduct) :=
  match env.settings with
  | none => .error settingsLoadErrorMsg
  | some _ =>
    if responseOk env.status then
      match env.payload with
      | .arr records => .ok (records.map normalizeProduct)
      | .notArr => .error invalidResponseMsg
    else .error (apiErrorMsg env.status env.bodyText)

example :
    normalizeProduct ⟨7, "Widget", "19.90", "d", ["u", ""], [], "publish"⟩ =
      ⟨7, "Widget", .val (mkRat 199 10), "d", some "u", none, true⟩ := by decide
example : buildApiUrl "https://a.example" = "https://a.example/wp-json/wc/v3/products?per_page=100" := by decide

/-- A row of the `products` table, per the migration's columns together with
the `catalog_price` override column used by the product-list UI
(`ProductDetails` in App.tsx). Timestamps are opaque strings. -/
structure ProductRow where
  id : String
  woo_id : Nat
  name : String
  price : JsNum
  description : Option String
  image_url : Option String
  category : Option String
  is_active : Bool
  catalog_price : Option ℚ
  updated_at : String
deriving DecidableEq, Repr

/-- One element of the upsert payload built by `handleSync` (App.tsx lines
123-126): the spread of a normalized product plus `updated_at`. -/
structure UpsertRecord where
  product : NormalizedProduct
  updated_at : String
deriving DecidableEq, Repr

/-- Merge of an upsert payload element into an existing row with the same
`woo_id`. Exactly the payload's columns are overwritten; columns absent from
the payload — `id` and `catalog_price` — keep their stored values.
Modelled from the spec: the Catalog Store collaborator's `upsertByKey` has
merge-not-replace semantics (§4.3); the payload columns are those built by
`handleSync`. -/
def mergeRow (r : ProductRow) (u : UpsertRecord) : ProductRow :=
  { r with
    woo_id := u.product.woo_id
    name := u.product.name
    price := u.product.price
    description := some u.product.description
    image_url := u.product.image_url
    category := u.product.category
    is_active := u.product.is_active
    updated_at := u.updated_at }

/-- Row inserted when no row with the payload's `woo_id` exists. The collaborator
generates the fresh `id` (migration default `gen_random_uuid()`); it is modelled
as a function of the key, and `catalog_price` starts absent (no column default). -/
def newRow (u : UpsertRecord) : ProductRow :=
  { id := "generated-" ++ toString u.product.woo_id
    woo_id := u.product.woo_id
    name := u.product.name
    price := u.product.price
    description := some u.product.description
    image_url := u.product.image_url
    category := u.product.category
    is_active := u.product.is_active
    catalog_price := none
    updated_at := u.updated_at }

/-- Upsert of one payload element keyed by `woo_id` (`onConflict: "woo_id"`):
merge into the existing row when the key is present, insert otherwise.
Modelled from the spec: `upsertByKey(key, fields)` of §4.3. -/
def upsertOne (store : List ProductRow) (u : UpsertRecord) : List ProductRow :=
  if store.any (fun r => r.woo_id == u.product.woo_id) then
    store.map (fun r => if r.woo_id == u.product.woo_id then mergeRow r u else r)
  else
    store ++ [newRow u]

/-- Upsert of the whole payload, row by row. -/
def upsertAll (store : List ProductRow) (us : List UpsertRecord) : List ProductRow :=
  us.foldl upsertOne store

/-- Error message set by the `hasSettings` guard of `handleSync` (App.tsx line 110). -/
def configureFirstMsg : String :=
  "Configure primeiro as informações do WooCommerce nas configurações."

/-- Observable outcome of one `handleSync` run: the error banner set on failure
(`setError`), the value the async function returns (it has no return statement,
hence always `none`), the `products` table afterwards, and the number of rows
in the upsert payload. -/
structure SyncRun where
  errMsg : Option String
  returnedValue : Option Nat
  store : List ProductRow
  written : Nat
deriving DecidableEq, Repr

/-- The Sync Orchestrator `handleSync` (App.tsx lines 108-139): it refuses to
run unless `hasSettings` (exactly one settings row was counted), calls
`syncProducts`, upserts the returned products keyed by `woo_id` with
`updated_at := now`, and surfaces any thrown message via `setError`. -/
def handleSync (settingsCount : Nat) (env : RemoteEnv) (store : List ProductRow)
    (now : String) : SyncRun :=
  if settingsCount ≠ 1 then
    { errMsg := some configureFirstMsg, returnedValue := none, store := store, written := 0 }
  else
    match syncProducts env with
    | .error e =>
      { errMsg := some e, returnedValue := none, store := store, written := 0 }
    | .ok products =>
      { errMsg := none
        returnedValue := none
        store := upsertAll store (products.map (fun p => ⟨p, now⟩))
        written := products.length }

/-- The renderer's input element type, per the `Product` interface of `src/lib/pdf.ts`. -/
structure Product where
  name : String
  price : JsNum
  category : Option String
deriving DecidableEq, Repr

/-- The renderer's company-info argument, per the `CompanyInfo` interface of pdf.ts. -/
structure CompanyInfo where
  company_name : String
  logo_url : Option String
  contact_phone : Option String
  contact_email : Option String
deriving DecidableEq, Repr

/-- Horizontal alignment of a jsPDF text command (`left` is the default). -/
inductive HAlign where
  | left
  | center
  | right
deriving DecidableEq, Repr

/-- One `doc.text(...)` call: the string, its coordinates, alignment, and the
font size active at the call. -/
structure TextCmd where
  text : String
  x : ℚ
  y : ℚ
  align : HAlign
  fontSize : ℚ
deriving DecidableEq, Repr

/-- One `doc.autoTable(...)` call: header rows, body rows, and start ordinate. -/
structure AutoTable where
  head : List (List String)
  body : List (List String)
  startY : ℚ
deriving DecidableEq, Repr

/-- A drawing command issued to the jsPDF document, in issue order. -/
inductive PdfItem where
  | text (cmd : TextCmd)
  | table (t : AutoTable)
deriving DecidableEq, Repr

/-- jsPDF default A4 page width in mm; `pageWidth / 2` of the source is 105. -/
def pageWidth : ℚ := 210

/-- The centered x used by the header and subtitle: `pageWidth / 2`. -/
def centerX : ℚ := 105

/-- The right-aligned footer x: `pageWidth - 20`. -/
def rightX : ℚ := 190

/-- The footer ordinate: jsPDF default A4 page height 297 minus 20. -/
def footerY : ℚ := 277

/-- JavaScript truthiness of an optional string field (`undefined`, `null`
and the empty string are falsy), as in `if (companyInfo.contact_phone)`. -/
def jsTruthyStr : Option String → Bool
  | none => false
  | some s => !s.isEmpty

/-- The footer phone command emitted when `contact_phone` is truthy (pdf.ts line 64). -/
def phoneFooterCmd (ci : CompanyInfo) : TextCmd :=
  ⟨"Tel: " ++ ci.contact_phone.getD "", 20, footerY, .left, 10⟩

/-- The footer email command emitted when `contact_email` is truthy (pdf.ts line 67). -/
def emailFooterCmd (ci : CompanyInfo) : TextCmd :=
  ⟨"Email: " ++ ci.contact_email.getD "", rightX, footerY, .right, 10⟩

/-- One table body row of the products table (pdf.ts lines 38-42):
name, category defaulting to "-", and the price as `R$ <toFixed(2)>`. -/
def productRowCells (p : Product) : List String :=
  [p.name, p.category.getD "-", "R$ " ++ toFixed2 p.price]

/-- The Document Renderer `generateProductCatalog` (pdf.ts lines 18-71) as the
ordered list of drawing commands it issues: centered company header (font 20),
centered dated subtitle (font 12), the products table from y 40, and the
conditional footer lines. The current date, read by the source via
`new Date()`, is an explicit argument. -/
def generateProductCatalog (products : List Product) (companyInfo : CompanyInfo)
    (today : SimpleDate) : List PdfItem :=
  [ .text ⟨companyInfo.company_name, centerX, 20, .center, 20⟩,
    .text ⟨"Catálogo de Produtos - " ++ formatDDMMYYYY today, centerX, 30, .center, 12⟩,
    .table ⟨[["Produto", "Categoria", "Preço"]], products.map productRowCells, 40⟩ ]
  ++ (if jsTruthyStr companyInfo.contact_phone then [.text (phoneFooterCmd companyInfo)] else [])
  ++ (if jsTruthyStr companyInfo.contact_email then [.text (emailFooterCmd companyInfo)] else [])

/-- The text commands of a document, in order. -/
def docTexts (doc : List PdfItem) : List TextCmd :=
  doc.filterMap (fun item =>
    match item with
    | .text c => some c
    | .table _ => none)

/-- The tables of a document, in order. -/
def docTables (doc : List PdfItem) : List AutoTable :=
  doc.filterMap (fun item =>
    match item with
    | .text _ => none
    | .table t => some t)

/-- The text commands placed at the footer ordinate. -/
def footerTexts (doc : List PdfItem) : List TextCmd :=
  (docTexts doc).filter (fun c => c.y == footerY)

/-- Ambient browser state a call site lives in: the clock read by `new Date()`
and unrelated session state (here the location path). -/
structure BrowserWorld where
  today : SimpleDate
  locationPath : String
deriving DecidableEq, Repr

/-- `generateProductCatalog` as invoked in some browser world: the renderer
reads the world's clock via `new Date()` and nothing else from the world. -/
def generateProductCatalogAt (w : BrowserWorld) (products : List Product)
    (companyInfo : CompanyInfo) : List PdfItem :=
  generateProductCatalog products companyInfo w.today

/-- The renderer input built from a selected row by `generatePDF` (App.tsx
lines 191-195): the row's description (or "Sem nome") as the name, the row's
raw `price`, and `category || undefined`. -/
def toPdfProduct (p : ProductRow) : Product :=
  { name :=
      match p.description with
      | some d => if d.isEmpty then "Sem nome" else d
      | none => "Sem nome"
    price := p.price
    category := jsOrNull p.category }

/-- Error message shown when no product is selected (App.tsx line 173). -/
def selectPdfMsg : String := "Selecione pelo menos um produto para gerar o PDF."

/-- Error message shown when the company settings row cannot be loaded (App.tsx line 183). -/
def companyLoadErrorMsg : String :=
  "Não foi possível carregar as configurações da empresa para gerar o PDF."

/-- Outcome of a `generatePDF` click: either the action is blocked with a
user-facing error before the renderer runs, or the renderer was invoked and
produced a document. -/
inductive GeneratePdfOutcome where
  | blocked (message : String)
  | rendered (doc : List PdfItem)
deriving DecidableEq, Repr

/-- The UI-layer `generatePDF` (App.tsx lines 171-212): refuses when the
selection is empty, refuses when the company settings row cannot be loaded,
and otherwise renders the selected rows (in table order) mapped through
`toPdfProduct`. -/
def generatePDF (products : List ProductRow) (selectedProducts : List String)
    (companySettings : Option CompanyInfo) (today : SimpleDate) : GeneratePdfOutcome :=
  if selectedProducts.length = 0 then .blocked selectPdfMsg
  else
    match companySettings with
    | none => .blocked companyLoadErrorMsg
    | some ci =>
      .rendered (generateProductCatalog
        ((products.filter (fun p => selectedProducts.contains p.id)).map toPdfProduct)
        ci today)

/-- The claim's normalization of a base URL to exactly one trailing slash:
all trailing slashes removed, then one appended. Spec-side definition, used
to compare the claimed URL shape with `buildApiUrl`. -/
def withExactlyOneTrailingSlash (url : String) : String :=
  String.mk ((url.toList.reverse.dropWhile (fun c => c == '/')).reverse ++ ['/'])

/-- Every row of a store survives a single upsert with its identity, key and
catalog price unchanged: a merge touches neither `id` nor `catalog_price`,
and an insert removes nothing. -/
theorem mem_upsertOne_of_mem {store : List ProductRow} {r : ProductRow}
    (u : UpsertRecord) (hr : r ∈ store) :
    ∃ r₂ ∈ upsertOne store u,
      r₂.id = r.id ∧ r₂.woo_id = r.woo_id ∧ r₂.catalog_price = r.catalog_price := by
  unfold upsertOne
  by_cases h : store.any (fun x => x.woo_id == u.product.woo_id) = true
  · simp only [h, if_true]
    refine ⟨if r.woo_id == u.product.woo_id then mergeRow r u else r,
      List.mem_map_of_mem _ hr, ?_⟩
    by_cases hb : r.woo_id == u.product.woo_id
    · have hbe : r.woo_id = u.product.woo_id := by simpa using hb
      simp [hb, mergeRow, hbe]
    · simp [hb]
  · simp only [eq_false_of_ne_true h, if_false]
    exact ⟨r, List.mem_append_left _ hr, rfl, rfl, rfl⟩

/-- After a single upsert, some row carries the upserted record's key: either
the pre-existing row it merged into, or the freshly inserted row. -/
theorem exists_key_upsertOne (store : List ProductRow) (u : UpsertRecord) :
    ∃ r ∈ upsertOne store u, r.woo_id = u.product.woo_id := by
  unfold upsertOne
  by_cases h : store.any (fun x => x.woo_id == u.product.woo_id) = true
  · simp only [h, if_true]
    obtain ⟨r₀, hr₀, hb⟩ := List.any_eq_true.mp h
    refine ⟨mergeRow r₀ u, ?_, rfl⟩
    have himg :
        (fun r => if r.woo_id == u.product.woo_id then mergeRow r u else r) r₀ =
          mergeRow r₀ u := by
      simp [hb]
    exact himg ▸ List.mem_map_of_mem _ hr₀
  · simp only [eq_false_of_ne_true h, if_false]
    exact ⟨newRow u, List.mem_append_right _ (List.mem_singleton_self _), rfl⟩

/-- Every row of a store survives a whole upsert run with its identity, key
and catalog price unchanged. -/
theorem mem_upsertAll_of_mem {store : List ProductRow} {r : ProductRow}
    (us : List UpsertRecord) (hr : r ∈ store) :
    ∃ r₂ ∈ upsertAll store us,
      r₂.id = r.id ∧ r₂.woo_id = r.woo_id ∧ r₂.catalog_price = r.catalog_price := by
  induction us generalizing store r with
  | nil => exact ⟨r, hr, rfl, rfl, rfl⟩
  | cons u us ih =>
    obtain ⟨r₂, h₂, e1, e2, e3⟩ := mem_upsertOne_of_mem u hr
    obtain ⟨r₃, h₃, f1, f2, f3⟩ := ih h₂
    exact ⟨r₃, h₃, f1.trans e1, f2.trans e2, f3.trans e3⟩

/-- After a whole upsert run, every record of the payload has a row carrying
its key in the resulting store. -/
theorem exists_key_upsertAll {us : List UpsertRecord} {u : UpsertRecord}
    (store : List ProductRow) (hu : u ∈ us) :
    ∃ r ∈ upsertAll store us, r.woo_id = u.product.woo_id := by
  induction us generalizing store with
  | nil => cases hu
  | cons v vs ih =>
    rcases List.mem_cons.mp hu with h | h
    · subst h
      obtain ⟨r₀, h₀, e₀⟩ := exists_key_upsertOne store u
      obtain ⟨r₂, h₂, _, f2, _⟩ := mem_upsertAll_of_mem vs h₀
      exact ⟨r₂, h₂, f2.trans e₀⟩
    · exact ih _ h

/-- Claim C1: a `catalogPrice` set by a user before a synchronization run is
identical after the run, whatever the remote snapshot (in particular when the
upstream price changed): the upsert payload carries no `catalog_price` column,
so the merge leaves it untouched on every existing row. -/
theorem sync_preserves_catalog_price (settingsCount : Nat) (env : RemoteEnv)
    (store : List ProductRow) (now : String) (r : ProductRow) (v : ℚ)
    (hr : r ∈ store) (hv : r.catalog_price = some v) :
    ∃ r₂ ∈ (handleSync settingsCount env store now).store,
      r₂.id = r.id ∧ r₂.catalog_price = some v := by
  unfold handleSync
  by_cases hs : settingsCount ≠ 1
  · rw [if_pos hs]
    exact ⟨r, hr, rfl, hv⟩
  · rw [if_neg hs]
    cases h : syncProducts env with
    | error e => exact ⟨r, hr, rfl, hv⟩
    | ok ps =>
      obtain ⟨r₂, h₂, e1, _, e3⟩ := mem_upsertAll_of_mem
        (ps.map (fun p => ⟨p, now⟩)) hr
      exact ⟨r₂, h₂, e1, e3.trans hv⟩

/-- Witness for C1: a concrete run whose remote snapshot changes the upstream
price of woo_id 7 from 10 to 25.50 leaves the user-set catalog price 15 on row p1. -/
theorem sync_preserves_catalog_price_witness :
    ∃ r₂ ∈ (handleSync 1
      ⟨some ⟨"https://a.example", "k", "s"⟩, 200, "",
        .arr [⟨7, "Widget", "25.50", "d", [], [], "publish"⟩]⟩
      [⟨"p1", 7, "Widget", .val 10, some "Widget", none, some "Tools", true, some 15, "t0"⟩]
      "t1").store,
      r₂.id = "p1" ∧ r₂.catalog_price = some 15 :=
  sync_preserves_catalog_price 1
    ⟨some ⟨"https://a.example", "k", "s"⟩, 200, "",
      .arr [⟨7, "Widget", "25.50", "d", [], [], "publish"⟩]⟩
    [⟨"p1", 7, "Widget", .val 10, some "Widget", none, some "Tools", true, some 15, "t0"⟩]
    "t1"
    ⟨"p1", 7, "Widget", .val 10, some "Widget", none, some "Tools", true, some 15, "t0"⟩
    15 (by simp) rfl

/-- Claim C2 counterexample: a record whose price string is "abc" does not
normalize to price 0 — `parseFloat("abc")` is NaN, and `|| '0'` only catches
the empty string. -/
theorem unparsable_price_yields_nan :
    ¬ (normalizeProduct ⟨7, "Widget", "abc", "", [], [], "publish"⟩).price = JsNum.val 0
    ∧ (normalizeProduct ⟨7, "Widget", "abc", "", [], [], "publish"⟩).price = JsNum.nan := by
  decide

/-- Claim C2 (amended): normalization never raises — with settings present, an
ok status and an array payload, `syncProducts` returns the normalized list for
arbitrary price strings — and the 0 default applies exactly to the falsy
(empty) price string; a non-empty unparsable string yields NaN instead. -/
theorem price_normalization_amended (ws : WooSettings) (status : Nat)
    (body : String) (recs : List WooRecord) (hok : responseOk status = true) :
    syncProducts ⟨some ws, status, body, .arr recs⟩ = .ok (recs.map normalizeProduct)
    ∧ ∀ r : WooRecord, r.price = "" → (normalizeProduct r).price = JsNum.val 0 := by
  constructor
  · simp [syncProducts, hok]
  · intro r h
    show parseJsFloat (if r.price.isEmpty then "0" else r.price) = JsNum.val 0
    rw [h]
    decide

/-- Witness for C2 (amended): a concrete ok run with one empty-price record
succeeds and normalizes that price to 0. -/
theorem price_normalization_amended_witness :
    responseOk 200 = true
    ∧ syncProducts ⟨some ⟨"u", "k", "s"⟩, 200, "", .arr [⟨7, "W", "", "", [], [], "publish"⟩]⟩
      = .ok [normalizeProduct ⟨7, "W", "", "", [], [], "publish"⟩]
    ∧ (normalizeProduct ⟨7, "W", "", "", [], [], "publish"⟩).price = JsNum.val 0 :=
  ⟨by decide,
   (price_normalization_amended ⟨"u", "k", "s"⟩ 200 ""
     [⟨7, "W", "", "", [], [], "publish"⟩] (by decide)).1,
   (price_normalization_amended ⟨"u", "k", "s"⟩ 200 ""
     [⟨7, "W", "", "", [], [], "publish"⟩] (by decide)).2
     ⟨7, "W", "", "", [], [], "publish"⟩ rfl⟩

/-- Claim C3 counterexample: an HTTP 401 produces exactly the generic API
error message template — the same single throw site as HTTP 500 — not a
distinct auth error. -/
theorem http401_uses_generic_api_error :
    syncProducts ⟨some ⟨"u", "k", "s"⟩, 401, "Unauthorized", .notArr⟩
      = .error (apiErrorMsg 401 "Unauthorized")
    ∧ syncProducts ⟨some ⟨"u", "k", "s"⟩, 500, "Unauthorized", .notArr⟩
      = .error (apiErrorMsg 500 "Unauthorized")
    ∧ apiErrorMsg 401 "Unauthorized" = "Erro na API do WooCommerce: 401 - Unauthorized" :=
  ⟨rfl, rfl, rfl⟩

/-- Claim C3 (amended): every non-success status — 401 included — fails with
the one generic API error carrying status code and body; a non-array payload
fails with the shape-error message, which differs from every API error message. -/
theorem remote_error_messages_amended (ws : WooSettings) (status : Nat)
    (body : String) (pl : RemotePayload) :
    (responseOk status = false →
      syncProducts ⟨some ws, status, body, pl⟩ = .error (apiErrorMsg status body))
    ∧ (responseOk status = true →
      syncProducts ⟨some ws, status, body, .notArr⟩ = .error invalidResponseMsg)
    ∧ invalidResponseMsg ≠ apiErrorMsg status body := by
  refine ⟨?_, ?_, ?_⟩
  · intro h; simp [syncProducts, h]
  · intro h; simp [syncProducts, h]
  · intro hEq
    have h1 : invalidResponseMsg.data.head? = some 'R' := rfl
    have h2 : (apiErrorMsg status body).data.head? = some 'E' := rfl
    rw [hEq, h2] at h1
    simp at h1

/-- Witness for C3 (amended): concrete instances — HTTP 500 yields the generic
API error, HTTP 200 with a non-array payload yields the shape error, and the
two messages differ. -/
theorem remote_error_messages_amended_witness :
    responseOk 500 = false
    ∧ syncProducts ⟨some ⟨"u", "k", "s"⟩, 500, "boom", .arr []⟩
      = .error (apiErrorMsg 500 "boom")
    ∧ responseOk 200 = true
    ∧ syncProducts ⟨some ⟨"u", "k", "s"⟩, 200, "", .notArr⟩ = .error invalidResponseMsg
    ∧ invalidResponseMsg ≠ apiErrorMsg 500 "boom" :=
  ⟨by decide,
   (remote_error_messages_amended ⟨"u", "k", "s"⟩ 500 "boom" (.arr [])).1 (by decide),
   by decide,
   (remote_error_messages_amended ⟨"u", "k", "s"⟩ 200 "" .notArr).2.1 (by decide),
   (remote_error_messages_amended ⟨"u", "k", "s"⟩ 500 "boom" (.arr [])).2.2⟩

/-- Claim C4 (code bug): at the failing input — selected row p1 with
store-of-record price 10 and user-set catalog price 15 — `generatePDF` hands
the renderer the raw store price, so the exported table prices the product at
R$ 10.00 rather than the catalog R$ 15.00. -/
theorem pdf_price_ignores_catalog_price :
    (toPdfProduct ⟨"p1", 7, "W", .val 10, some "Widget", none, some "Tools", true,
        some 15, "t"⟩).price = JsNum.val 10
    ∧ generatePDF
        [⟨"p1", 7, "W", .val 10, some "Widget", none, some "Tools", true, some 15, "t"⟩]
        ["p1"] (some ⟨"Acme", none, none, none⟩) ⟨5, 1, 2025⟩
      = .rendered (generateProductCatalog [⟨"Widget", .val 10, some "Tools"⟩]
          ⟨"Acme", none, none, none⟩ ⟨5, 1, 2025⟩)
    ∧ productRowCells ⟨"Widget", .val 10, some "Tools"⟩ = ["Widget", "Tools", "R$ 10.00"]
    ∧ "R$ " ++ toFixed2 (JsNum.val 15) = "R$ 15.00"
    ∧ ("R$ 10.00" : String) ≠ "R$ 15.00" := by
  decide

/-- Claim C5: the rendered document opens with the centered company-name
header, then the centered subtitle carrying the dd/mm/yyyy date, then the
three-column products table with exactly one row per input product in input
order; an absent category renders as "-", and prices render as `R$ ` plus the
amount fixed to two decimals (19.9 renders as `R$ 19.90`). -/
theorem generateProductCatalog_layout (ps : List Product) (ci : CompanyInfo)
    (d : SimpleDate) :
    (generateProductCatalog ps ci d).head? =
        some (.text ⟨ci.company_name, centerX, 20, .center, 20⟩)
    ∧ (generateProductCatalog ps ci d)[1]? =
        some (.text ⟨"Catálogo de Produtos - " ++ formatDDMMYYYY d, centerX, 30, .center, 12⟩)
    ∧ docTables (generateProductCatalog ps ci d) =
        [⟨[["Produto", "Categoria", "Preço"]], ps.map productRowCells, 40⟩]
    ∧ (ps.map productRowCells).length = ps.length
    ∧ ps.map productRowCells =
        ps.map (fun p => [p.name, p.category.getD "-", "R$ " ++ toFixed2 p.price])
    ∧ formatDDMMYYYY ⟨5, 1, 2025⟩ = "05/01/2025"
    ∧ productRowCells ⟨"Widget", .val (mkRat 199 10), some "Tools"⟩
        = ["Widget", "Tools", "R$ 19.90"]
    ∧ productRowCells ⟨"Gadget", .val 5, none⟩ = ["Gadget", "-", "R$ 5.00"] := by
  refine ⟨rfl, rfl, ?_, by simp, rfl, by decide, by decide, by decide⟩
  cases hp : jsTruthyStr ci.contact_phone <;>
    cases he : jsTruthyStr ci.contact_email <;>
    simp [generateProductCatalog, docTables, hp, he]

/-- Claim C6 counterexample: with the products and company fixed, two runs in
worlds whose clocks differ produce different documents — the renderer is not a
pure function of (products, company) alone. -/
theorem renderer_depends_on_current_date :
    ¬ (generateProductCatalogAt ⟨⟨1, 1, 2025⟩, "/"⟩ [] ⟨"Acme", none, none, none⟩ =
       generateProductCatalogAt ⟨⟨2, 1, 2025⟩, "/"⟩ [] ⟨"Acme", none, none, none⟩) := by
  decide

/-- Claim C6 (amended): the renderer is a pure function of (products, company,
current date): its output depends on nothing else in the ambient world, so two
calls agreeing on those three inputs produce identical documents. -/
theorem renderer_pure_given_date (ps : List Product) (ci : CompanyInfo)
    (w₁ w₂ : BrowserWorld) (h : w₁.today = w₂.today) :
    generateProductCatalogAt w₁ ps ci = generateProductCatalogAt w₂ ps ci := by
  unfold generateProductCatalogAt
  rw [h]

/-- Witness for C6 (amended): two worlds sharing the clock but differing in
the rest of the session state render identical documents. -/
theorem renderer_pure_given_date_witness :
    generateProductCatalogAt ⟨⟨5, 1, 2025⟩, "/"⟩
        [⟨"Widget", .val 10, none⟩] ⟨"Acme", none, none, none⟩
      = generateProductCatalogAt ⟨⟨5, 1, 2025⟩, "/settings"⟩
        [⟨"Widget", .val 10, none⟩] ⟨"Acme", none, none, none⟩ :=
  renderer_pure_given_date [⟨"Widget", .val 10, none⟩] ⟨"Acme", none, none, none⟩
    ⟨⟨5, 1, 2025⟩, "/"⟩ ⟨⟨5, 1, 2025⟩, "/settings"⟩ rfl

/-- Claim C7: with zero products selected, `generatePDF` blocks with the
user-facing message and never invokes the renderer; and whenever the renderer
is invoked from a selection consisting of rows present in the table, its
product list is non-empty. -/
theorem generatePDF_empty_selection_blocked :
    (∀ (products : List ProductRow) (cs : Option CompanyInfo) (d : SimpleDate),
        generatePDF products [] cs d = .blocked selectPdfMsg)
    ∧ (∀ (products : List ProductRow) (sel : List String) (cs : Option CompanyInfo)
        (d : SimpleDate) (doc : List PdfItem),
        (∀ s ∈ sel, ∃ p ∈ products, p.id = s) →
        generatePDF products sel cs d = .rendered doc →
        (products.filter (fun p => sel.contains p.id)).map toPdfProduct ≠ []) := by
  constructor
  · intro products cs d; rfl
  · intro products sel cs d doc hsel hr
    unfold generatePDF at hr
    by_cases h0 : sel.length = 0
    · rw [if_pos h0] at hr; cases hr
    · rw [if_neg h0] at hr
      cases cs with
      | none => cases hr
      | some ci =>
        have hne : sel ≠ [] := by
          intro he; exact h0 (by simp [he])
        obtain ⟨s, ss, hes⟩ := List.exists_cons_of_ne_nil hne
        obtain ⟨p, hp, hid⟩ := hsel s (by rw [hes]; exact List.mem_cons_self s ss)
        have hmem : p ∈ products.filter (fun q => sel.contains q.id) := by
          rw [List.mem_filter]
          refine ⟨hp, ?_⟩
          rw [hid, hes]
          simp [List.contains]
        intro hmapnil
        rw [List.map_eq_nil_iff] at hmapnil
        rw [hmapnil] at hmem
        cases hmem

/-- Witness for C7: the empty selection is blocked with the expected message,
and a concrete rendered run received a non-empty product list. -/
theorem generatePDF_empty_selection_blocked_witness :
    generatePDF [] [] none ⟨5, 1, 2025⟩ = .blocked selectPdfMsg
    ∧ ([⟨"p1", 7, "W", .val 10, some "Widget", none, none, true, none, "t"⟩].filter
        (fun p => ["p1"].contains p.id)).map toPdfProduct ≠ [] :=
  ⟨generatePDF_empty_selection_blocked.1 [] none ⟨5, 1, 2025⟩,
   generatePDF_empty_selection_blocked.2
     [⟨"p1", 7, "W", .val 10, some "Widget", none, none, true, none, "t"⟩]
     ["p1"] (some ⟨"Acme", none, none, none⟩) ⟨5, 1, 2025⟩
     (generateProductCatalog
       [toPdfProduct ⟨"p1", 7, "W", .val 10, some "Widget", none, none, true, none, "t"⟩]
       ⟨"Acme", none, none, none⟩ ⟨5, 1, 2025⟩)
     (by decide) rfl⟩

/-- Claim C8 counterexample: a successful concrete run upserts 2 rows, yet the
orchestrator's returned value is not that count — `handleSync` has no return
statement, so no count (indeed no value at all) is returned. -/
theorem synchronize_returns_no_count :
    (handleSync 1 ⟨some ⟨"u", "k", "s"⟩, 200, "",
        .arr [⟨1, "A", "10", "", [], [], "publish"⟩, ⟨2, "B", "20", "", [], [], "draft"⟩]⟩
      [] "t").written = 2
    ∧ (handleSync 1 ⟨some ⟨"u", "k", "s"⟩, 200, "",
        .arr [⟨1, "A", "10", "", [], [], "publish"⟩, ⟨2, "B", "20", "", [], [], "draft"⟩]⟩
      [] "t").returnedValue = none
    ∧ ¬ ((handleSync 1 ⟨some ⟨"u", "k", "s"⟩, 200, "",
        .arr [⟨1, "A", "10", "", [], [], "publish"⟩, ⟨2, "B", "20", "", [], [], "draft"⟩]⟩
      [] "t").returnedValue
        = some (handleSync 1 ⟨some ⟨"u", "k", "s"⟩, 200, "",
            .arr [⟨1, "A", "10", "", [], [], "publish"⟩, ⟨2, "B", "20", "", [], [], "draft"⟩]⟩
          [] "t").written) := by
  decide

/-- Claim C8 (amended): the orchestrator fails with the settings-missing
messages when the guard count is not 1 or the settings row is absent (writing
nothing), and on success it completes only after upserting every fetched
product — the resulting table is the full upsert of the fetched list, every
fetched product's key is present in it, and the number of rows written is the
length of the fetched list; no count is returned. -/
theorem synchronize_contract_amended (settingsCount : Nat) (env : RemoteEnv)
    (store : List ProductRow) (now : String) :
    (settingsCount ≠ 1 →
      handleSync settingsCount env store now = ⟨some configureFirstMsg, none, store, 0⟩)
    ∧ (env.settings = none →
      handleSync 1 env store now = ⟨some settingsLoadErrorMsg, none, store, 0⟩)
    ∧ (∀ ps, syncProducts env = .ok ps →
        handleSync 1 env store now =
          ⟨none, none, upsertAll store (ps.map (fun p => ⟨p, now⟩)), ps.length⟩
        ∧ ∀ p ∈ ps, ∃ r ∈ (handleSync 1 env store now).store, r.woo_id = p.woo_id) := by
  refine ⟨?_, ?_, ?_⟩
  · intro h; unfold handleSync; rw [if_pos h]
  · intro h; simp [handleSync, syncProducts, h]
  · intro ps hps
    have hrun : handleSync 1 env store now =
        ⟨none, none, upsertAll store (ps.map (fun p => ⟨p, now⟩)), ps.length⟩ := by
      unfold handleSync
      rw [if_neg (by simp), hps]
    refine ⟨hrun, ?_⟩
    intro p hp
    rw [hrun]
    exact exists_key_upsertAll store (List.mem_map_of_mem (fun p => ⟨p, now⟩) hp)

/-- Witness for C8 (amended): concrete runs for the guard failure, the missing
settings row, and a successful one-product sync whose table afterwards carries
the fetched key. -/
theorem synchronize_contract_amended_witness :
    handleSync 0 ⟨some ⟨"u", "k", "s"⟩, 200, "", .arr []⟩ [] "t"
      = ⟨some configureFirstMsg, none, [], 0⟩
    ∧ handleSync 1 ⟨none, 200, "", .arr []⟩ [] "t"
      = ⟨some settingsLoadErrorMsg, none, [], 0⟩
    ∧ handleSync 1 ⟨some ⟨"u", "k", "s"⟩, 200, "",
        .arr [⟨7, "W", "10", "", [], [], "publish"⟩]⟩ [] "t"
      = ⟨none, none,
          upsertAll []
            ([normalizeProduct ⟨7, "W", "10", "", [], [], "publish"⟩].map (fun p => ⟨p, "t"⟩)),
          1⟩
    ∧ ∃ r ∈ (handleSync 1 ⟨some ⟨"u", "k", "s"⟩, 200, "",
          .arr [⟨7, "W", "10", "", [], [], "publish"⟩]⟩ [] "t").store,
        r.woo_id = 7 :=
  ⟨(synchronize_contract_amended 0 ⟨some ⟨"u", "k", "s"⟩, 200, "", .arr []⟩ [] "t").1
     (by decide),
   (synchronize_contract_amended 1 ⟨none, 200, "", .arr []⟩ [] "t").2.1 rfl,
   ((synchronize_contract_amended 1
       ⟨some ⟨"u", "k", "s"⟩, 200, "", .arr [⟨7, "W", "10", "", [], [], "publish"⟩]⟩ [] "t").2.2
     [normalizeProduct ⟨7, "W", "10", "", [], [], "publish"⟩] rfl).1,
   ((synchronize_contract_amended 1
       ⟨some ⟨"u", "k", "s"⟩, 200, "", .arr [⟨7, "W", "10", "", [], [], "publish"⟩]⟩ [] "t").2.2
     [normalizeProduct ⟨7, "W", "10", "", [], [], "publish"⟩] rfl).2
     (normalizeProduct ⟨7, "W", "10", "", [], [], "publish"⟩) (by simp)⟩

/-- Claim C9: the footer contains the left-aligned phone line exactly when the
contact phone is present (truthy) and the right-aligned email line exactly
when the contact email is present; when a field is absent nothing is emitted
at that footer position. -/
theorem footer_lines_iff_contact_present (ps : List Product) (ci : CompanyInfo)
    (d : SimpleDate) :
    footerTexts (generateProductCatalog ps ci d) =
      (if jsTruthyStr ci.contact_phone then [phoneFooterCmd ci] else [])
      ++ (if jsTruthyStr ci.contact_email then [emailFooterCmd ci] else [])
    ∧ (phoneFooterCmd ci ∈ docTexts (generateProductCatalog ps ci d)
        ↔ jsTruthyStr ci.contact_phone = true)
    ∧ (emailFooterCmd ci ∈ docTexts (generateProductCatalog ps ci d)
        ↔ jsTruthyStr ci.contact_email = true) := by
  have hy20 : ((20 : ℚ) == footerY) = false := by decide
  have hy30 : ((30 : ℚ) == footerY) = false := by decide
  have hyF : (footerY == footerY) = true := by decide
  have hne20 : footerY ≠ (20 : ℚ) := by decide
  have hne30 : footerY ≠ (30 : ℚ) := by decide
  have hx : (20 : ℚ) ≠ rightX := by decide
  cases hp : jsTruthyStr ci.contact_phone <;>
    cases he : jsTruthyStr ci.contact_email <;>
    simp [footerTexts, docTexts, generateProductCatalog, hp, he, hy20, hy30, hyF,
      phoneFooterCmd, emailFooterCmd, hne20, hne30, hx]

/-- Claim C10 counterexample: a configured URL already ending in two slashes is
used as-is, so the fetched endpoint is not the URL normalized to exactly one
trailing slash. -/
theorem double_slash_url_not_normalized :
    buildApiUrl "https://a.example//"
      = "https://a.example//wp-json/wc/v3/products?per_page=100"
    ∧ withExactlyOneTrailingSlash "https://a.example//" ++ productsQuery
      = "https://a.example/wp-json/wc/v3/products?per_page=100"
    ∧ buildApiUrl "https://a.example//"
      ≠ withExactlyOneTrailingSlash "https://a.example//" ++ productsQuery := by
  refine ⟨rfl, rfl, by decide⟩

/-- Claim C10 (amended): a slash is appended exactly when the URL does not
already end with one, so for every URL without a trailing slash the endpoint
is `url + '/' + path`, and appending a trailing slash to such a URL leaves the
endpoint identical. -/
theorem api_url_trailing_slash_amended (url : String)
    (h : endsWithSlash url = false) :
    buildApiUrl url = url ++ "/" ++ productsQuery
    ∧ buildApiUrl (url ++ "/") = buildApiUrl url := by
  have hslash : endsWithSlash (url ++ "/") = true := by
    unfold endsWithSlash
    have hdata : (url ++ "/").toList = url.toList ++ ['/'] := rfl
    rw [hdata, List.getLast?_concat]
    rfl
  constructor
  · unfold buildApiUrl
    rw [h]
    simp
  · unfold buildApiUrl
    rw [h, hslash]
    simp

/-- Witness for C10 (amended): a concrete URL without a trailing slash. -/
theorem api_url_trailing_slash_amended_witness :
    buildApiUrl "https://shop.example"
      = "https://shop.example" ++ "/" ++ productsQuery
    ∧ buildApiUrl ("https://shop.example" ++ "/") = buildApiUrl "https://shop.example" :=
  api_url_trailing_slash_amended "https://shop.example" (by decide)
